import Mathlib

/-!
Shallow embedding of the inventory catalog service (`src/main.js`).

The service keeps one JSON document `inventory.json` (an array of item
records) plus a flat directory of photo files, both under a cache
directory.  Each HTTP handler performs a load / mutate / save cycle on the
document and coordinates photo-file writes and deletes around it.

The embedding models:
  * the item record exactly as the code builds it (`Item`);
  * the persisted document as what `JSON.parse` can observe of the file
    (`FileContent`): absent, present-but-unparseable, or a JSON value;
  * the photo directory as the list of filenames it holds;
  * every handler as a pure function from state and request data to an
    HTTP-level result and a new state.

`Date.now()` is passed in explicitly (`now : Nat`), and the filename multer
generated for an uploaded file is passed as `reqFile : Option String`;
multer writes that file into the cache directory before the handler body
runs, which the models reproduce via `storeUpload`.
-/

namespace InventoryService

/-- The item record, with the fields the `POST /register` handler writes
(`src/main.js` lines 131-137).  `photoFilename` and `photoUrl` are `null`
when the item has no photo. -/
structure Item where
  id : String
  inventory_name : String
  description : String
  photoFilename : Option String
  photoUrl : Option String
deriving DecidableEq

/-- JSON values of the shapes this program reads and writes: the document
is an array of flat objects whose fields are strings or `null`. -/
inductive Json where
  | null
  | str (s : String)
  | arr (elems : List Json)
  | obj (fields : List (String × Json))

/-- An optional string field as the code serializes it: `null` or a string. -/
def encodeOptStr : Option String → Json
  | none => Json.null
  | some s => Json.str s

/-- The JSON object `JSON.stringify` produces for one item record, with the
field order of the object literal at `src/main.js` lines 131-137. -/
def encodeItem (item : Item) : Json :=
  Json.obj [("id", Json.str item.id),
            ("inventory_name", Json.str item.inventory_name),
            ("description", Json.str item.description),
            ("photoFilename", encodeOptStr item.photoFilename),
            ("photoUrl", encodeOptStr item.photoUrl)]

/-- The JSON array `saveInventory` serializes. -/
def encodeItems (items : List Item) : Json :=
  Json.arr (items.map encodeItem)

/-- Reads back an optional string field. -/
def decodeOptStr : Json → Option (Option String)
  | Json.null => some none
  | Json.str s => some (some s)
  | _ => none

/-- Reads one item record back from its JSON object.  `JSON.parse` itself
returns an untyped value that the handlers use duck-typed; this decoder
reads exactly the record layout the program writes (the only layout that
ever reaches the document). -/
def decodeItem : Json → Option Item
  | Json.obj [("id", Json.str id),
              ("inventory_name", Json.str inventory_name),
              ("description", Json.str description),
              ("photoFilename", pf),
              ("photoUrl", pu)] =>
    match decodeOptStr pf, decodeOptStr pu with
    | some photoFilename, some photoUrl =>
      some { id := id, inventory_name := inventory_name,
             description := description,
             photoFilename := photoFilename, photoUrl := photoUrl }
    | _, _ => none
  | _ => none

/-- Decodes each element of the persisted array. -/
def decodeItemList : List Json → Option (List Item)
  | [] => some []
  | j :: js =>
    match decodeItem j, decodeItemList js with
    | some item, some items => some (item :: items)
    | _, _ => none

/-- Decodes the whole persisted document (an array of item records). -/
def decodeItems : Json → Option (List Item)
  | Json.arr elems => decodeItemList elems
  | _ => none

/-- What reading `inventory.json` can observe: the file is absent
(`fsp.readFile` throws `ENOENT`), present but not valid JSON
(`JSON.parse` throws), or present and parsed to a JSON value. -/
inductive FileContent where
  | absent
  | corrupt
  | json (j : Json)

/-- `loadInventory` (`src/main.js` lines 34-41): returns the parsed
document, and returns `[]` from the catch-all when the read or the parse
throws — for the absent file and for the corrupt file alike.  A parsed
value that is not an array of item records never arises from this program
(the document is only ever written by `saveInventory`); the decoder
totalises that dead branch with `[]`. -/
def loadInventory : FileContent → List Item
  | FileContent.absent => []
  | FileContent.corrupt => []
  | FileContent.json j => (decodeItems j).getD []

/-- `saveInventory` (`src/main.js` lines 43-45): serializes the full
collection and writes it over `inventory.json`, replacing prior content. -/
def saveInventory (items : List Item) : FileContent :=
  FileContent.json (encodeItems items)

/-- `findItem` (`src/main.js` lines 47-49): first item whose `id` matches. -/
def findItem (items : List Item) (id : String) : Option Item :=
  items.find? (fun item => item.id == id)

/-- The service state: the persisted document and the photo files present
in the cache directory. -/
structure SysState where
  doc : FileContent
  photos : List String

/-- The HTTP-level outcomes the modelled handlers produce. -/
inductive HResult where
  | status400 (error : String)
  | status404 (error : String)
  | status200Item (item : Item)
  | status201Item (item : Item)
  | status200Deleted (id : String)
  | status200Photo (photoFilename contentType : String)
deriving DecidableEq

/-- The multer disk storage (`src/main.js` lines 57-65): when the request
carries a file, multer writes it into the cache directory, under its
generated name, before the route handler body runs. -/
def storeUpload (photos : List String) (reqFile : Option String) : List String :=
  match reqFile with
  | some f => f :: photos
  | none => photos

/-- JavaScript `String.prototype.trim`: the string with whitespace removed
from both ends, as the handlers call it on `inventory_name`. -/
def jsTrim (s : String) : String :=
  String.mk (((s.toList.dropWhile Char.isWhitespace).reverse.dropWhile
    Char.isWhitespace).reverse)

/-- The item record built by `POST /register` (`src/main.js` lines
121-137): `id` is `String(Date.now())`, `description` defaults to `""`
via `description || ""`, and the photo fields are set exactly when a file
was uploaded. -/
def newRegisteredItem (name : String) (description reqFile : Option String)
    (now : Nat) : Item :=
  { id := toString now,
    inventory_name := name,
    description := description.getD "",
    photoFilename := reqFile,
    photoUrl := reqFile.map (fun _ => "/inventory/" ++ toString now ++ "/photo") }

/-- The load half of the register handler: everything up to the awaited
`loadInventory()` (`src/main.js` line 120).  The snapshot it returns is
the whole collection as persisted at that moment. -/
def registerLoadPhase (st : SysState) : List Item :=
  loadInventory st.doc

/-- The save half of the register handler (`src/main.js` lines 121-140):
builds the new item from the earlier snapshot, appends it, and writes the
snapshot-plus-item back as the whole document. -/
def registerSavePhase (st : SysState) (snapshot : List Item) (name : String)
    (description reqFile : Option String) (now : Nat) : Item × SysState :=
  let newItem := newRegisteredItem name description reqFile now
  (newItem, { st with doc := saveInventory (snapshot ++ [newItem]) })

/-- The validation test of `POST /register` (`src/main.js` line 116):
`!inventory_name || inventory_name.trim() === ""`. -/
def blankName : Option String → Bool
  | none => true
  | some s => s == "" || jsTrim s == ""

/-- `POST /register` (`src/main.js` lines 113-143): multer stores the
upload first; a missing or blank `inventory_name` is rejected with 400;
otherwise the new item is appended and persisted and returned with 201. -/
def registerHandler (st : SysState) (inventory_name description reqFile : Option String)
    (now : Nat) : HResult × SysState :=
  let stUp : SysState := { st with photos := storeUpload st.photos reqFile }
  match inventory_name with
  | none => (HResult.status400 "inventory_name is required", stUp)
  | some name =>
    if name == "" || jsTrim name == "" then
      (HResult.status400 "inventory_name is required", stUp)
    else
      let snapshot := registerLoadPhase stUp
      let r := registerSavePhase stUp snapshot name description reqFile now
      (HResult.status201Item r.1, r.2)

/-- The field assignments of `PUT /inventory/:id` (`src/main.js` lines
191-192): `inventory_name` is written only when supplied with a non-blank
trim; `description` is written whenever it is supplied, the empty string
included. -/
def updateItem (item : Item) (inventory_name description : Option String) : Item :=
  let item1 := match inventory_name with
    | some n => if jsTrim n == "" then item else { item with inventory_name := n }
    | none => item
  match description with
  | some d => { item1 with description := d }
  | none => item1

/-- The in-place mutation of the found array element: the first item whose
`id` matches is replaced, the rest are untouched. -/
def replaceFirst : List Item → String → Item → List Item
  | [], _, _ => []
  | item :: rest, id, updated =>
    if item.id == id then updated :: rest else item :: replaceFirst rest id updated

/-- `PUT /inventory/:id` (`src/main.js` lines 182-196): 404 without a save
when the id matches no item; otherwise the found item is mutated per
`updateItem`, the collection is persisted, and the item is returned. -/
def updateHandler (st : SysState) (id : String)
    (inventory_name description : Option String) : HResult × SysState :=
  let items := loadInventory st.doc
  match findItem items id with
  | none => (HResult.status404 "Item not found", st)
  | some item =>
    let updated := updateItem item inventory_name description
    (HResult.status200Item updated,
     { st with doc := saveInventory (replaceFirst items id updated) })

/-- The `splice(index, 1)` of the delete handler: removes the first item
whose `id` matches. -/
def eraseFirstById : List Item → String → List Item
  | [], _ => []
  | item :: rest, id =>
    if item.id == id then rest else item :: eraseFirstById rest id

/-- `DELETE /inventory/:id` (`src/main.js` lines 199-215): 404 when the id
matches no item; otherwise the item is spliced out, its photo file (if it
names one and the file exists) is unlinked, and the collection is
persisted. -/
def deleteHandler (st : SysState) (id : String) : HResult × SysState :=
  let items := loadInventory st.doc
  match findItem items id with
  | none => (HResult.status404 "Item not found", st)
  | some deleted =>
    let items1 := eraseFirstById items id
    let photos1 := match deleted.photoFilename with
      | some f => st.photos.erase f
      | none => st.photos
    (HResult.status200Deleted id, { doc := saveInventory items1, photos := photos1 })

/-- `GET /inventory/:id/photo` (`src/main.js` lines 224-240): 404 with
body error `"Photo not found"` when the item is absent or has no
`photoFilename`; 404 with body error `"Photo file not found"` when the
named file is missing from the cache directory; otherwise the bytes are
sent with content type `image/jpeg`. -/
def getPhotoHandler (st : SysState) (id : String) : HResult × SysState :=
  let items := loadInventory st.doc
  match findItem items id with
  | none => (HResult.status404 "Photo not found", st)
  | some item =>
    match item.photoFilename with
    | none => (HResult.status404 "Photo not found", st)
    | some photoFilename =>
      if photoFilename ∈ st.photos then
        (HResult.status200Photo photoFilename "image/jpeg", st)
      else
        (HResult.status404 "Photo file not found", st)

/-- `PUT /inventory/:id/photo` (`src/main.js` lines 243-265): multer has
already stored the upload; an unknown id unlinks that upload and answers
404; otherwise the item's old photo file (if any, and if it exists) is
unlinked, the photo fields are reassigned only when a file was uploaded,
and the collection is persisted. -/
def replacePhotoHandler (st : SysState) (id : String) (reqFile : Option String) :
    HResult × SysState :=
  let photos0 := storeUpload st.photos reqFile
  let items := loadInventory st.doc
  match findItem items id with
  | none =>
    let photos1 := match reqFile with
      | some f => photos0.erase f
      | none => photos0
    (HResult.status404 "Item not found", { st with photos := photos1 })
  | some item =>
    let photos1 := match item.photoFilename with
      | some oldName => photos0.erase oldName
      | none => photos0
    let updated := match reqFile with
      | some f =>
        { item with
          photoFilename := some f
          photoUrl := some ("/inventory/" ++ id ++ "/photo") }
      | none => item
    (HResult.status200Item updated,
     { doc := saveInventory (replaceFirst items id updated), photos := photos1 })

/-- The dangling-reference check: every non-null `photoFilename` of the
collection names a file present in the cache directory. -/
def refsResolve (items : List Item) (photos : List String) : Bool :=
  items.all (fun item =>
    match item.photoFilename with
    | none => true
    | some f => photos.contains f)

/-- A lowercase hex digit, for the JSON `\u` escape. -/
def hexDigit (n : Nat) : Char :=
  if n < 10 then Char.ofNat (48 + n) else Char.ofNat (87 + n)

/-- How `JSON.stringify` escapes one character inside a string literal. -/
def escapeJsonChar (c : Char) : String :=
  if c = '"' then "\\\""
  else if c = '\\' then "\\\\"
  else if c.toNat = 8 then "\\b"
  else if c.toNat = 12 then "\\f"
  else if c = '\n' then "\\n"
  else if c.toNat = 13 then "\\r"
  else if c = '\t' then "\\t"
  else if c.toNat < 32 then
    "\\u00" ++ String.mk [hexDigit (c.toNat / 16), hexDigit (c.toNat % 16)]
  else String.singleton c

/-- A JSON string literal as `JSON.stringify` renders it. -/
def quoteJsonString (s : String) : String :=
  "\"" ++ String.join (s.toList.map escapeJsonChar) ++ "\""

/-- An optional string field as `JSON.stringify` renders it. -/
def stringifyOptStr : Option String → String
  | none => "null"
  | some s => quoteJsonString s

/-- One item record as `JSON.stringify(items, null, 2)` renders it at depth
one: fields indented four spaces, closing brace indented two. -/
def stringifyItem (item : Item) : String :=
  "\x7b\n"
  ++ "    \"id\": " ++ quoteJsonString item.id ++ ",\n"
  ++ "    \"inventory_name\": " ++ quoteJsonString item.inventory_name ++ ",\n"
  ++ "    \"description\": " ++ quoteJsonString item.description ++ ",\n"
  ++ "    \"photoFilename\": " ++ stringifyOptStr item.photoFilename ++ ",\n"
  ++ "    \"photoUrl\": " ++ stringifyOptStr item.photoUrl ++ "\n"
  ++ "  \x7d"

/-- The exact byte content `saveInventory` hands to `fsp.writeFile`:
`JSON.stringify(items, null, 2)`. -/
def stringifyItems : List Item → String
  | [] => "[]"
  | items => "[\n  " ++ String.intercalate ",\n  " (items.map stringifyItem) ++ "\n]"

/-- The on-disk contents observable if the process crashes during a plain
in-place `fsp.writeFile`: opening with the `w` flag truncates the file at
once (the previous content is already gone), and any prefix of the new
bytes may have been flushed when the crash happens. -/
def writeFileCrashStates (newContent : String) : List String :=
  (List.range (newContent.length + 1)).map (fun k => String.mk (newContent.toList.take k))

/-- The crash-observable file contents of `saveInventory` (`src/main.js`
lines 43-45), which writes the serialized collection in place. -/
def saveInventoryCrashStates (items : List Item) : List String :=
  writeFileCrashStates (stringifyItems items)

/-- Follows the spec's words, for comparison with `saveInventoryCrashStates`:
a save that writes the new bytes to a temporary location and then renames
it over the old file leaves, at every crash point, either the previous
document or the complete new one. -/
def atomicSaveCrashStates (oldContent newContent : String) : List String :=
  [oldContent, newContent]

/-- A registered item owning the photo file `a.jpg`. -/
def drillItem : Item :=
  { id := "1", inventory_name := "Drill", description := "",
    photoFilename := some "a.jpg", photoUrl := some "/inventory/1/photo" }

/-- A consistent state: `drillItem` is persisted and its photo file is
present in the cache directory. -/
def drillState : SysState :=
  { doc := saveInventory [drillItem], photos := ["a.jpg"] }

/-- A minimal photo-less item, used to exhibit concrete document bytes. -/
def tinyItem : Item :=
  { id := "1", inventory_name := "A", description := "",
    photoFilename := none, photoUrl := none }

/-- An item named `Hammer` with a prior description. -/
def hammerItem : Item :=
  { id := "1", inventory_name := "Hammer", description := "old",
    photoFilename := none, photoUrl := none }

/-- A state persisting only `hammerItem`. -/
def hammerState : SysState :=
  { doc := saveInventory [hammerItem], photos := [] }

/-- An item whose photo reference names `p.jpg`. -/
def photoItem : Item :=
  { id := "1", inventory_name := "Cam", description := "",
    photoFilename := some "p.jpg", photoUrl := some "/inventory/1/photo" }

/-- A diverged state: `photoItem` is persisted but `p.jpg` is missing from
the cache directory. -/
def photoState : SysState :=
  { doc := saveInventory [photoItem], photos := [] }

/-- The state after two sequential `POST /register` calls whose
`Date.now()` fell in the same millisecond (`7`). -/
def twoRegistersSameMillisecond : SysState :=
  (registerHandler
    ((registerHandler { doc := FileContent.absent, photos := [] }
        (some "A") none none 7).2)
    (some "B") none none 7).2

/-- The shared state after the lost-update interleaving of two register
cycles: both requests await `loadInventory()` against the same initial
document, then each computes and saves; the second save overwrites the
first's. -/
def interleavedRegistersRun : SysState :=
  let st0 : SysState := { doc := FileContent.absent, photos := [] }
  let snapA := registerLoadPhase st0
  let snapB := registerLoadPhase st0
  let st1 := (registerSavePhase st0 snapA "A" none none 1).2
  (registerSavePhase st1 snapB "B" none none 2).2

/-- Decoding inverts encoding on one item record. -/
theorem decodeItem_encodeItem (item : Item) : decodeItem (encodeItem item) = some item := by
  cases item with
  | mk id name descr pf pu => cases pf <;> cases pu <;> rfl

/-- Decoding inverts encoding elementwise on the persisted array. -/
theorem decodeItemList_encode (items : List Item) :
    decodeItemList (items.map encodeItem) = some items := by
  induction items with
  | nil => rfl
  | cons item rest ih => simp [decodeItemList, decodeItem_encodeItem, ih]

/-- Claim C8: for every collection, loading the document `saveInventory`
persisted yields that same collection back, so saving the loaded
collection rewrites a document representing exactly the same collection —
the serialization round-trip is idempotent on content. -/
theorem save_load_roundtrip (items : List Item) :
    loadInventory (saveInventory items) = items ∧
    saveInventory (loadInventory (saveInventory items)) = saveInventory items := by
  have h : loadInventory (saveInventory items) = items := by
    simp [loadInventory, saveInventory, encodeItems, decodeItems, decodeItemList_encode]
  exact ⟨h, by rw [h]⟩

/-- Claim C1 (violation): from a consistent state, `PUT /inventory/:id/photo`
invoked without an uploaded photo unlinks the item's current photo file,
leaves the item's `photoFilename` pointing at the deleted file, persists
that collection and answers 200 — a dangling reference.  Deleting the item
instead keeps every remaining reference resolvable. -/
theorem replacePhoto_no_upload_dangling_reference :
    refsResolve (loadInventory drillState.doc) drillState.photos = true ∧
    (replacePhotoHandler drillState "1" none).1 = HResult.status200Item drillItem ∧
    loadInventory (replacePhotoHandler drillState "1" none).2.doc = [drillItem] ∧
    (replacePhotoHandler drillState "1" none).2.photos = [] ∧
    refsResolve (loadInventory (replacePhotoHandler drillState "1" none).2.doc)
      (replacePhotoHandler drillState "1" none).2.photos = false ∧
    refsResolve (loadInventory (deleteHandler drillState "1").2.doc)
      (deleteHandler drillState "1").2.photos = true :=
  ⟨rfl, rfl, rfl, rfl, rfl, rfl⟩

/-- Claim C2 (violation): a present-but-unparseable document is loaded as
the empty collection by `loadInventory`'s catch-all, exactly like an
absent file, and the next `POST /register` proceeds normally — answering
201 and overwriting the corrupt document with a one-item collection
instead of surfacing a storage fault and refusing mutations. -/
theorem corrupt_document_loads_empty_and_mutations_proceed :
    loadInventory FileContent.corrupt = [] ∧
    loadInventory FileContent.absent = [] ∧
    (registerHandler { doc := FileContent.corrupt, photos := [] }
        (some "Drill") none none 5).1
      = HResult.status201Item { id := "5", inventory_name := "Drill", description := "",
                                photoFilename := none, photoUrl := none } ∧
    (registerHandler { doc := FileContent.corrupt, photos := [] }
        (some "Drill") none none 5).2.doc
      = saveInventory [{ id := "5", inventory_name := "Drill", description := "",
                         photoFilename := none, photoUrl := none }] :=
  ⟨rfl, rfl, rfl, rfl⟩

set_option maxRecDepth 8000 in
/-- Claim C3 (violation): `saveInventory` writes the serialized collection
in place with one `fsp.writeFile`, so a crash mid-write can leave a state
(here: the empty file, truncation having already destroyed the old bytes)
that is neither the previous document nor the new one — which the
spec-described temporary-file-then-rename save would never expose. -/
theorem save_crash_can_truncate_document :
    "" ∈ saveInventoryCrashStates [tinyItem] ∧
    "" ≠ stringifyItems [] ∧
    "" ≠ stringifyItems [tinyItem] ∧
    "" ∉ atomicSaveCrashStates (stringifyItems []) (stringifyItems [tinyItem]) := by
  refine ⟨?_, by decide, by decide, by decide⟩
  exact List.mem_map.mpr ⟨0, List.mem_range.mpr (Nat.succ_pos _), rfl⟩

/-- Claim C4: `PUT /inventory/:id` on an existing item applies only the
fields supplied — an absent or blank `inventory_name` leaves the stored
name unchanged, while a supplied `description` (the empty string
included) replaces the prior one — and the updated item is persisted and
returned. -/
theorem update_applies_only_supplied_fields (st : SysState) (id : String)
    (inventory_name : Option String) (d : String) (item : Item)
    (hfind : findItem (loadInventory st.doc) id = some item)
    (hblank : inventory_name = none ∨ ∃ s, inventory_name = some s ∧ jsTrim s = "") :
    (updateItem item inventory_name (some d)).inventory_name = item.inventory_name ∧
    (updateItem item inventory_name (some d)).description = d ∧
    updateHandler st id inventory_name (some d) =
      (HResult.status200Item (updateItem item inventory_name (some d)),
       { st with doc := saveInventory (replaceFirst (loadInventory st.doc) id
           (updateItem item inventory_name (some d))) }) := by
  refine ⟨?_, ?_, ?_⟩
  · rcases hblank with h | ⟨s, hs, htrim⟩
    · subst h; rfl
    · subst hs; simp [updateItem, htrim]
  · cases inventory_name with
    | none => rfl
    | some s => simp only [updateItem]
  · simp only [updateHandler, hfind]

/-- Witness for C4: clearing the description of the `Hammer` item with
body `(description := "")` preserves the name `Hammer`. -/
theorem update_applies_only_supplied_fields_witness :
    (updateItem hammerItem none (some "")).inventory_name = hammerItem.inventory_name ∧
    (updateItem hammerItem none (some "")).description = "" ∧
    updateHandler hammerState "1" none (some "") =
      (HResult.status200Item (updateItem hammerItem none (some "")),
       { hammerState with doc := saveInventory (replaceFirst (loadInventory hammerState.doc) "1"
           (updateItem hammerItem none (some ""))) }) :=
  update_applies_only_supplied_fields hammerState "1" none "" hammerItem rfl (Or.inl rfl)

/-- Claim C5 (violation): two `POST /register` calls whose `Date.now()`
fall in the same millisecond both receive id `String(Date.now())`; both
items are appended, so the persisted collection holds two distinct items
with the same id. -/
theorem register_same_millisecond_duplicate_ids :
    (loadInventory twoRegistersSameMillisecond.doc).map Item.id = ["7", "7"] ∧
    (loadInventory twoRegistersSameMillisecond.doc).length = 2 ∧
    ¬ ((loadInventory twoRegistersSameMillisecond.doc).map Item.id).Nodup :=
  ⟨rfl, rfl, by decide⟩

/-- Claim C6: `POST /register` answers 400 exactly when `inventory_name`
is absent, empty or blank; otherwise it builds the new item with id
`String(Date.now())`, the photo reference set exactly when a file was
uploaded (and that file already stored in the cache directory), appends
it to the loaded collection, persists, and answers 201 with the item. -/
theorem register_validation_and_creation (st : SysState)
    (inventory_name description reqFile : Option String) (now : Nat) :
    ((registerHandler st inventory_name description reqFile now).1
        = HResult.status400 "inventory_name is required"
      ↔ blankName inventory_name = true) ∧
    (∀ name, inventory_name = some name → jsTrim name ≠ "" →
      registerHandler st inventory_name description reqFile now =
        (HResult.status201Item (newRegisteredItem name description reqFile now),
         { doc := saveInventory (loadInventory st.doc
             ++ [newRegisteredItem name description reqFile now]),
           photos := storeUpload st.photos reqFile }) ∧
      (newRegisteredItem name description reqFile now).id = toString now ∧
      (newRegisteredItem name description reqFile now).inventory_name = name ∧
      (newRegisteredItem name description reqFile now).description = description.getD "" ∧
      (newRegisteredItem name description reqFile now).photoFilename = reqFile ∧
      (∀ f, reqFile = some f → f ∈ storeUpload st.photos reqFile)) := by
  constructor
  · cases inventory_name with
    | none => simp [registerHandler, blankName]
    | some name =>
      cases hb : (name == "" || jsTrim name == "") with
      | true => simp [registerHandler, blankName, hb]
      | false => simp [registerHandler, blankName, hb, registerSavePhase, registerLoadPhase]
  · intro name hn htrim
    subst hn
    have h2 : (jsTrim name == "") = false := by simp [htrim]
    have h1 : (name == "") = false := by
      simp only [beq_eq_false_iff_ne, ne_eq]
      intro h; subst h; exact htrim rfl
    refine ⟨?_, rfl, rfl, rfl, rfl, ?_⟩
    · simp [registerHandler, h1, h2, registerSavePhase, registerLoadPhase]
    · intro f hf; subst hf; simp [storeUpload]

/-- Claim C7: `GET /inventory/:id/photo` on an existing item answers 404
with body error `Photo not found` when the item has no photo reference,
404 with the distinct body error `Photo file not found` when the
referenced file is missing from the cache directory (the two responses
differ), and otherwise sends the photo with content type `image/jpeg`. -/
theorem fetchPhoto_distinguishes_missing_file (st : SysState) (id : String) (item : Item)
    (hfind : findItem (loadInventory st.doc) id = some item) :
    (item.photoFilename = none →
      (getPhotoHandler st id).1 = HResult.status404 "Photo not found") ∧
    (∀ f, item.photoFilename = some f → f ∉ st.photos →
      (getPhotoHandler st id).1 = HResult.status404 "Photo file not found") ∧
    (∀ f, item.photoFilename = some f → f ∈ st.photos →
      getPhotoHandler st id = (HResult.status200Photo f "image/jpeg", st)) ∧
    HResult.status404 "Photo not found" ≠ HResult.status404 "Photo file not found" := by
  refine ⟨?_, ?_, ?_, by decide⟩
  · intro h; simp only [getPhotoHandler, hfind, h]
  · intro f hf hmem
    simp only [getPhotoHandler, hfind, hf]
    rw [if_neg hmem]
  · intro f hf hmem
    simp only [getPhotoHandler, hfind, hf]
    rw [if_pos hmem]

/-- Witness for C7: with `photoItem` persisted but `p.jpg` missing from
the cache directory, the handler answers the integrity-fault body, which
differs from the ordinary no-photo body. -/
theorem fetchPhoto_distinguishes_missing_file_witness :
    (getPhotoHandler photoState "1").1 = HResult.status404 "Photo file not found" ∧
    HResult.status404 "Photo not found" ≠ HResult.status404 "Photo file not found" := by
  have h := fetchPhoto_distinguishes_missing_file photoState "1" photoItem rfl
  exact ⟨h.2.1 "p.jpg" rfl (by decide), h.2.2.2⟩

/-- Claim C9 (violation): two concurrent register cycles that both load
before either saves end with a persisted collection holding only the
second item — the first register's append is silently discarded (lost
update), where the claim requires both items to survive. -/
theorem interleaved_registers_lose_update :
    loadInventory interleavedRegistersRun.doc
      = [{ id := "2", inventory_name := "B", description := "",
           photoFilename := none, photoUrl := none }] ∧
    (loadInventory interleavedRegistersRun.doc).length = 1 :=
  ⟨rfl, rfl⟩

/-- Claim C10: `PUT /inventory/:id/photo` with an id matching no item
answers 404, unlinks the file multer had already stored for the upload,
and leaves the persisted collection and every other photo file exactly as
they were (the final state equals the initial one). -/
theorem replacePhoto_unknown_id_cleanup (st : SysState) (id : String)
    (hfind : findItem (loadInventory st.doc) id = none) :
    (∀ f, replacePhotoHandler st id (some f) = (HResult.status404 "Item not found", st)) ∧
    replacePhotoHandler st id none = (HResult.status404 "Item not found", st) := by
  constructor
  · intro f
    simp only [replacePhotoHandler, storeUpload, hfind, List.erase_cons_head]
  · simp only [replacePhotoHandler, storeUpload, hfind]

/-- Witness for C10: uploading `up.jpg` against the unknown id `9` answers
404 and restores the cache directory to exactly `keep.jpg`. -/
theorem replacePhoto_unknown_id_cleanup_witness :
    replacePhotoHandler { doc := FileContent.absent, photos := ["keep.jpg"] } "9" (some "up.jpg")
      = (HResult.status404 "Item not found",
         { doc := FileContent.absent, photos := ["keep.jpg"] }) :=
  (replacePhoto_unknown_id_cleanup
    { doc := FileContent.absent, photos := ["keep.jpg"] } "9" rfl).1 "up.jpg"

end InventoryService
